import Mathlib

/-!
Verification development for the LocalAIMailAssistant repository.

The Python sources are shallowly embedded: each relevant function is
translated into an executable Lean definition over explicit state, and the
specification claims are settled as theorems about those definitions.

Conventions used throughout:
* machine-level integers are `Nat`/`Int` (the Python code uses unbounded ints);
* timestamps are `Int` (seconds); `datetime.timedelta(days=60)` is `60 * 86400`;
* a Python function that can raise is embedded with an explicit outcome type
  (`PyResult` below) so that a propagating exception is distinguished from a
  returned `result.Ok`/`result.Err` value;
* the relational store (`sqlite` via `sqlmodel`) is embedded as a list of rows;
  a committed session mutation becomes a pure update of that list, and a raise
  before `session.commit()` leaves the list unchanged.
-/

set_option autoImplicit false

namespace LocalAIMailAssistant

/-! ## Outcomes of Python calls

`ok` embeds `result.Ok`, `err` embeds `result.Err` (both are *returned*
values), while `raised` embeds a Python exception propagating out of the
call.  `src/src/utils.py` / the `result` library distinguish exactly these
three ways a call site can end. -/

inductive PyResult (α : Type) where
  | ok (value : α)
  | err (msg : String)
  | raised (exc : String)
  deriving DecidableEq, Repr

/-! ## Flags: `src/src/models/mail_flag.py`

```python
class MailFlag(StrEnum):
    Seen = r"\Seen"
    Flagged = r"\Flagged"
    Answered = r"\Answered"
```

This is the only definition of `MailFlag` in the repository; it has **no**
member `Deleted`.  Several call sites nevertheless evaluate
`MailFlag.Deleted`, which raises `AttributeError` at run time; the embedding
records those points explicitly. -/

inductive MailFlag where
  | Seen
  | Flagged
  | Answered
  deriving DecidableEq, Repr

def MailFlag.value : MailFlag → String
  | .Seen => "\\Seen"
  | .Flagged => "\\Flagged"
  | .Answered => "\\Answered"

/-! ## Retry policy: `src/src/settings.py` and `src/src/imap/RealIMAPClient.py`

```python
class ImapSettings(BaseModel):
    max_retries: int = 3
    retry_delay: float = 2.0  # delay in seconds
```

The delay `2.0` is exactly representable, so it is embedded as the rational
number `2`. -/

structure ImapSettings where
  max_retries : Nat := 3
  retry_delay : ℚ := 2
  deriving DecidableEq, Repr

/-- One observable action performed by `RealIMAPClient._retry`
(`self.logout()`, `time.sleep(self.settings.retry_delay)`, `self.connect()`,
and the invocation of the wrapped operation itself). -/
inductive RetryAction where
  | call
  | logout
  | sleep (delay : ℚ)
  | connect
  deriving DecidableEq, Repr

/-- `src/src/imap/RealIMAPClient.py`, `_retry` (lines 66-77):

```python
def _retry(self, func, *args, **kwargs):
    attempts = self.settings.max_retries
    while attempts > 0:
        try:
            return func(*args, **kwargs)
        except (imaplib.IMAP4.error, Exception) as e:
            logger.error(f"Error: {e}. Reconnecting...")
            self.logout()
            time.sleep(self.settings.retry_delay)
            self.connect()
            attempts -= 1
    raise Exception("Max retry attempts reached.")
```

The wrapped operation is embedded as a function `outcomes` from the attempt
index (0-based) to the attempt's outcome; `attempt` is the index of the next
invocation and `attempts` is the loop counter.  The embedding also returns
the trace of observable actions. -/
def retryLoop {α : Type} (delay : ℚ) (outcomes : Nat → Except String α) :
    Nat → Nat → List RetryAction × Except String α
  | 0, _attempt => ([], .error "Max retry attempts reached.")
  | attempts + 1, attempt =>
    match outcomes attempt with
    | .ok a => ([.call], .ok a)
    | .error _ =>
      let rest := retryLoop delay outcomes attempts (attempt + 1)
      (.call :: .logout :: .sleep delay :: .connect :: rest.1, rest.2)

/-- `RealIMAPClient._retry`: run the wrapped operation under the retry policy
of the client's `ImapSettings`. -/
def RealIMAPClient.retry {α : Type} (s : ImapSettings) (outcomes : Nat → Except String α) :
    List RetryAction × Except String α :=
  retryLoop s.retry_delay outcomes s.max_retries 0

/-- Number of invocations of the wrapped operation in a retry trace. -/
def callCount : List RetryAction → Nat
  | [] => 0
  | .call :: tr => callCount tr + 1
  | .logout :: tr => callCount tr
  | .sleep _ :: tr => callCount tr
  | .connect :: tr => callCount tr

/-- The block of observable actions produced by one failed attempt:
the invocation itself, then `logout`, `sleep delay`, `connect`. -/
def failBlock (delay : ℚ) : List RetryAction :=
  [.call, .logout, .sleep delay, .connect]

/-- Whether an embedded Python call returned normally (`Except.ok`). -/
def isOkE {α : Type} : Except String α → Bool
  | .ok _ => true
  | .error _ => false

theorem callCount_append (tr tr' : List RetryAction) :
    callCount (tr ++ tr') = callCount tr + callCount tr' := by
  induction tr with
  | nil => simp [callCount]
  | cons a t ih =>
    cases a <;> simp [callCount, ih, Nat.add_right_comm]

theorem callCount_failBlocks (d : ℚ) :
    ∀ i, callCount ((List.replicate i (failBlock d)).flatten) = i := by
  intro i
  induction i with
  | zero => rfl
  | succ n ih =>
    rw [List.replicate_succ, List.flatten_cons, callCount_append, ih]
    simp [failBlock, callCount]
    omega

theorem retryLoop_le {α : Type} (delay : ℚ) (outcomes : Nat → Except String α) :
    ∀ attempts attempt,
      callCount (retryLoop delay outcomes attempts attempt).1 ≤ attempts := by
  intro attempts
  induction attempts with
  | zero => intro attempt; simp [retryLoop, callCount]
  | succ n ih =>
    intro attempt
    unfold retryLoop
    cases outcomes attempt with
    | ok a => simp [callCount]
    | error e =>
      have h := ih (attempt + 1)
      simp only [callCount]
      omega

theorem retryLoop_allFail {α : Type} (delay : ℚ) (outcomes : Nat → Except String α) :
    ∀ attempts attempt,
      (∀ i, i < attempts → isOkE (outcomes (attempt + i)) = false) →
      retryLoop delay outcomes attempts attempt =
        ((List.replicate attempts (failBlock delay)).flatten,
          Except.error "Max retry attempts reached.") := by
  intro attempts
  induction attempts with
  | zero => intro attempt _; rfl
  | succ n ih =>
    intro attempt h
    have h0 : isOkE (outcomes attempt) = false := by
      simpa using h 0 (Nat.succ_pos n)
    unfold retryLoop
    cases hout : outcomes attempt with
    | ok a => rw [hout] at h0; simp [isOkE] at h0
    | error e =>
      have hrec := ih (attempt + 1) (by
        intro i hi
        have := h (i + 1) (Nat.succ_lt_succ hi)
        simpa [Nat.add_assoc, Nat.add_comm 1 i] using this)
      rw [hrec]
      simp [List.replicate_succ, failBlock]

theorem retryLoop_firstOk {α : Type} (delay : ℚ) (outcomes : Nat → Except String α) :
    ∀ i attempts attempt, i < attempts →
      (∀ j, j < i → isOkE (outcomes (attempt + j)) = false) →
      isOkE (outcomes (attempt + i)) = true →
      retryLoop delay outcomes attempts attempt =
        ((List.replicate i (failBlock delay)).flatten ++ [RetryAction.call],
          outcomes (attempt + i)) := by
  intro i
  induction i with
  | zero =>
    intro attempts attempt hlt _ hok
    obtain ⟨n, rfl⟩ := Nat.exists_eq_succ_of_ne_zero (Nat.pos_iff_ne_zero.mp hlt)
    unfold retryLoop
    cases hout : outcomes attempt with
    | ok a => simp [hout]
    | error e => rw [Nat.add_zero, hout] at hok; simp [isOkE] at hok
  | succ m ih =>
    intro attempts attempt hlt hfail hok
    obtain ⟨n, rfl⟩ := Nat.exists_eq_succ_of_ne_zero
      (Nat.pos_iff_ne_zero.mp (Nat.lt_of_le_of_lt (Nat.zero_le _) hlt))
    have h0 : isOkE (outcomes attempt) = false := by
      simpa using hfail 0 (Nat.succ_pos m)
    unfold retryLoop
    cases hout : outcomes attempt with
    | ok a => rw [hout] at h0; simp [isOkE] at h0
    | error e =>
      have hrec := ih n (attempt + 1) (Nat.lt_of_succ_lt_succ hlt)
        (by
          intro j hj
          have := hfail (j + 1) (Nat.succ_lt_succ hj)
          simpa [Nat.add_assoc, Nat.add_comm 1 j] using this)
        (by simpa [Nat.add_assoc, Nat.add_comm 1 m] using hok)
      rw [hrec]
      have harg : attempt + 1 + m = attempt + (m + 1) := by omega
      rw [harg]
      simp [List.replicate_succ, failBlock]

/-- Claim C4: for every network-backed client operation run under
`RealIMAPClient._retry`, the operation is attempted at most
`max_retries` times; each transport-level failure is followed by a
disconnect, a sleep of the configured fixed delay, and a reconnect; the
result of the first successful attempt is returned; if every attempt fails,
a fatal error ("Max retry attempts reached.") is raised to the caller; and
the configured defaults (`src/src/settings.py`) are 3 attempts with a
2.0-second delay. -/
theorem claim_C4_retry_policy {α : Type} (s : ImapSettings) (outcomes : Nat → Except String α) :
    callCount (RealIMAPClient.retry s outcomes).1 ≤ s.max_retries ∧
    (∀ i, i < s.max_retries →
      (∀ j, j < i → isOkE (outcomes j) = false) →
      isOkE (outcomes i) = true →
      RealIMAPClient.retry s outcomes =
        ((List.replicate i (failBlock s.retry_delay)).flatten ++ [RetryAction.call],
          outcomes i)) ∧
    ((∀ i, i < s.max_retries → isOkE (outcomes i) = false) →
      RealIMAPClient.retry s outcomes =
        ((List.replicate s.max_retries (failBlock s.retry_delay)).flatten,
          Except.error "Max retry attempts reached.")) ∧
    ({} : ImapSettings).max_retries = 3 ∧
    ({} : ImapSettings).retry_delay = 2 := by
  refine ⟨retryLoop_le s.retry_delay outcomes s.max_retries 0, ?_, ?_, rfl, rfl⟩
  · intro i hi hfail hok
    have := retryLoop_firstOk s.retry_delay outcomes i s.max_retries 0 hi
      (by simpa using hfail) (by simpa using hok)
    simpa [RealIMAPClient.retry] using this
  · intro hall
    have := retryLoop_allFail s.retry_delay outcomes s.max_retries 0
      (by simpa using hall)
    simpa [RealIMAPClient.retry] using this

/-- A concrete schedule of attempt outcomes: the first attempt fails with a
transport error, the second succeeds with the value 42. -/
def retryOutcomesW : Nat → Except String Nat :=
  fun i => if i = 1 then .ok 42 else .error "socket timeout"

theorem claim_C4_retry_policy_witness :
    RealIMAPClient.retry ({} : ImapSettings) retryOutcomesW =
      ([.call, .logout, .sleep 2, .connect, .call], .ok 42) := by
  have h := (claim_C4_retry_policy ({} : ImapSettings) retryOutcomesW).2.1 1
    (by decide) (by decide) (by decide)
  rw [h]
  rfl

/-! ## Background job manager: `src/src/background_tasks/background_manager.py`
and `src/src/models/jobs.py`

```python
class STATUS(StrEnum):
    pending = "pending"
    in_progress = "in_progress"
    completed = "completed"
    failed = "failed"
```
-/

inductive STATUS where
  | pending
  | in_progress
  | completed
  | failed
  deriving DecidableEq, Repr

/-- The mutable fields of `JobStatusSQL` that `run_job` touches
(`job_type`, `email_message_id`, `account_id` are fixed identity fields and
are carried along unmodified; times are integer timestamps). -/
structure JobStatusSQL where
  job_type : String
  email_message_id : String
  account_id : String
  status : STATUS
  start_time : Option Int := none
  end_time : Option Int := none
  error_message : Option String := none
  output : Option String := none
  deriving DecidableEq, Repr

/-- How the registered handler for the job type behaves when invoked:
it returns `Ok` with an output value, returns `Err` with a message, or
raises an exception. -/
inductive HandlerOutcome where
  | ok (value : String)
  | err (msg : String)
  | raises (exc : String)
  deriving DecidableEq, Repr

/-- Whether `run_job` itself returned normally or let an exception
propagate to its caller (`process_pending_jobs`). -/
inductive RunExit where
  | normal
  | raised (exc : String)
  deriving DecidableEq, Repr

/-- `BackgroundTaskManager.run_job` (lines 72-94):

```python
async def run_job(self, job: JobStatusSQL) -> None:
    # Mark as in_progress and update start_time
    job.status = STATUS.in_progress
    job.start_time = datetime.now()
    await self.update_job(job)

    result: Result = await asyncio.to_thread(
        JOB_FUNCS[job.job_type], self.dbs[job.account_id],
        job.email_message_id, self.settings)

    if is_err(result):
        logger.exception(f"Job {job.id} failed: {result.err()}")
        job.error_message = str(result.err())
        job.status = STATUS.failed
    else:
        logger.success(f"Job {job.id} succeded")
        job.status = STATUS.completed

    job.end_time = datetime.now()
    await self.update_job(job)
```

`now1` is the `datetime.now()` taken before the handler runs, `now2` the one
taken after it.  There is no `try`/`except` around the handler invocation:
if the handler raises, the exception propagates out of `run_job` and the
remaining statements never execute.  Note that the `else` branch sets only
`job.status`; `job.output` is never assigned anywhere in `run_job`. -/
def run_job (now1 now2 : Int) (handler : HandlerOutcome) (job : JobStatusSQL) :
    RunExit × JobStatusSQL :=
  let job1 := { job with status := STATUS.in_progress, start_time := some now1 }
  match handler with
  | .raises exc => (.raised exc, job1)
  | .ok _v =>
    (.normal, { job1 with status := STATUS.completed, end_time := some now2 })
  | .err msg =>
    (.normal, { job1 with status := STATUS.failed, error_message := some msg,
                          end_time := some now2 })

/-- A freshly enqueued summary job, exactly as `add_job` creates it
(`status=pending`, no times, no error, no output). -/
def freshJobW : JobStatusSQL :=
  { job_type := "summary", email_message_id := "mid-1", account_id := "test",
    status := STATUS.pending }

/-- Claim C5, counterexample: a handler that returns `Ok("a summary")` on a
freshly enqueued job leaves the job `completed` with `output = None` — the
handler's output is *not* recorded, contradicting the claim that on `Ok` the
status is `completed` "with `output` recorded". -/
theorem claim_C5_counterexample :
    (run_job 10 11 (HandlerOutcome.ok "a summary") freshJobW).2.status =
      STATUS.completed ∧
    (run_job 10 11 (HandlerOutcome.ok "a summary") freshJobW).2.output = none := by
  exact ⟨rfl, rfl⟩

/-- Claim C5 as amended: `run_job` first marks the job `in_progress` with
`start_time` written immediately; when the handler returns `Ok` the job is
marked `completed` but its `output` field is left unrecorded (it keeps its
prior value, `None` for a fresh job); when the handler returns `Err` the job
is marked `failed` with `error_message` recorded; when the handler *raises*,
the exception propagates out of `run_job` and the job stays `in_progress`
with no `end_time` (it is not marked `failed`); whenever the handler returns
normally, `end_time` is stamped and `start_time ≤ end_time`; the job never
remains `pending` once `run_job` has started. -/
theorem claim_C5_run_job (now1 now2 : Int) (handler : HandlerOutcome)
    (job : JobStatusSQL) (hmono : now1 ≤ now2) :
    ((run_job now1 now2 handler job).2.start_time = some now1) ∧
    ((run_job now1 now2 handler job).2.status ≠ STATUS.pending) ∧
    (∀ v, handler = HandlerOutcome.ok v →
      run_job now1 now2 handler job =
        (RunExit.normal,
          { job with status := STATUS.completed, start_time := some now1,
                     end_time := some now2 })) ∧
    (∀ msg, handler = HandlerOutcome.err msg →
      run_job now1 now2 handler job =
        (RunExit.normal,
          { job with status := STATUS.failed, start_time := some now1,
                     end_time := some now2, error_message := some msg })) ∧
    (∀ exc, handler = HandlerOutcome.raises exc →
      run_job now1 now2 handler job =
        (RunExit.raised exc,
          { job with status := STATUS.in_progress, start_time := some now1 })) ∧
    ((∀ exc, handler ≠ HandlerOutcome.raises exc) →
      (run_job now1 now2 handler job).2.end_time = some now2 ∧
      (∀ t u, (run_job now1 now2 handler job).2.start_time = some t →
        (run_job now1 now2 handler job).2.end_time = some u → t ≤ u)) := by
  refine ⟨?_, ?_, ?_, ?_, ?_, ?_⟩
  · cases handler <;> rfl
  · cases handler <;> simp [run_job]
  · intro v hv; subst hv; rfl
  · intro msg hm; subst hm; rfl
  · intro exc he; subst he; rfl
  · intro hnr
    cases handler with
    | ok v =>
      refine ⟨rfl, ?_⟩
      intro t u ht hu
      simp [run_job] at ht hu
      omega
    | err msg =>
      refine ⟨rfl, ?_⟩
      intro t u ht hu
      simp [run_job] at ht hu
      omega
    | raises exc => exact absurd rfl (hnr exc)

theorem claim_C5_run_job_witness :
    run_job 10 11 (HandlerOutcome.err "llm unavailable") freshJobW =
      (RunExit.normal,
        { freshJobW with status := STATUS.failed, start_time := some 10,
                         end_time := some 11,
                         error_message := some "llm unavailable" }) := by
  exact (claim_C5_run_job 10 11 (HandlerOutcome.err "llm unavailable") freshJobW
    (by decide)).2.2.2.1 "llm unavailable" rfl

/-! ## Accounts and messages -/

/-- `src/src/accounts/accounts_loading.py`, `AccountSettings` — restricted to
the fields the embedded operations read (`name` keys the per-account store,
`imap_inbox_folder`/`imap_sent_folder` drive the sync priority ordering);
the credential fields are only passed to the network layer. -/
structure AccountSettings where
  name : String
  imap_inbox_folder : String := "INBOX"
  imap_sent_folder : String := "sent"
  deriving DecidableEq, Repr

/-- Modelled from the spec: the current-generation `MailMessage` row used by
`src/src/database/mail_db.py`, `src/src/imap/TestIMAPClient.py`,
`src/src/imap/parse_mails.py` and `src/src/background_tasks/` (a `MailMessage`
with `uid`, `plain_text` and mutable `seen`/`answered`/`flagged` fields) is
missing from the source tree — `src/src/models/message.py` holds an earlier
generation without `uid`.  Fields follow spec §3 "Message": protocol `uid`
scoped to a mailbox, global `message_id`, the mailbox name, body text, the
immutable header-derived fields, and the mutable flag projection. -/
structure MailMessage where
  uid : Nat
  mailbox : String
  message_id : String
  sender : String := ""
  subject : Option String := none
  reply_to : Option String := none
  date_sent : Int := 0
  date_received : Int := 0
  plain_text : String := ""
  seen : Bool := false
  answered : Bool := false
  flagged : Bool := false
  deleted_status : Bool := false
  junk_mail_status : Bool := false
  was_replied_to : Bool := false
  deriving DecidableEq, Repr

/-! ### Python `dict` as an association list (unique keys, insertion order) -/

def dictGet {α β : Type} [DecidableEq α] (k : α) : List (α × β) → Option β
  | [] => none
  | (k', v') :: rest => if k = k' then some v' else dictGet k rest

def dictSet {α β : Type} [DecidableEq α] (k : α) (v : β) : List (α × β) → List (α × β)
  | [] => [(k, v)]
  | (k', v') :: rest => if k = k' then (k, v) :: rest else (k', v') :: dictSet k v rest

/-- In-place mutation of an existing entry (`d[k].append(...)` in Python);
a no-op when the key is absent. -/
def dictUpdate {α β : Type} [DecidableEq α] (k : α) (f : β → β) : List (α × β) → List (α × β)
  | [] => []
  | (k', v') :: rest => if k = k' then (k', f v') :: rest else (k', v') :: dictUpdate k f rest

/-! ## The in-memory test double: `src/src/imap/TestIMAPClient.py`
(the same class also appears verbatim in `src/src/imap/imap_client.py`)

```python
class TestIMAPClient(ImapClientInterface):
    instance: Optional["TestIMAPClient"] = None
    initialzed: bool = False

    def __new__(cls, *args, **kwargs):
        if cls.instance is None:
            cls.instance = super().__new__(cls)
            return cls.instance
        return cls.instance

    def __init__(self, account, settings):
        self.account = account
        self.settings: ImapSettings = settings.imap_settings
        if self.initialzed:
            return
        self.messages: dict[int, MailMessage] = {}
        self.mailboxes: dict[str, list[int]] = {}
        self.mailboxes["INBOX"] = []
        self.initialzed = True
```
-/

/-- The instance attributes of the (unique) `TestIMAPClient` object. -/
structure TestClientState where
  account : AccountSettings
  settings : ImapSettings
  messages : List (Nat × MailMessage)
  mailboxes : List (String × List Nat)
  initialzed : Bool
  deriving DecidableEq, Repr

/-- One construction `TestIMAPClient(account, settings)`: `__new__` returns
the class-level `instance` (allocating only if it is `None`), then `__init__`
always overwrites `account`/`settings` and initialises `messages`/`mailboxes`
only when `initialzed` is still false.  The model's class state is the
`Option`-valued `instance` slot; the returned object and the slot content are
the same object, so the function returns both. -/
def TestIMAPClient.construct (inst : Option TestClientState)
    (account : AccountSettings) (settings : ImapSettings) :
    TestClientState × Option TestClientState :=
  match inst with
  | none =>
    let c : TestClientState :=
      { account := account, settings := settings, messages := [],
        mailboxes := [("INBOX", [])], initialzed := true }
    (c, some c)
  | some c =>
    let c' := { c with account := account, settings := settings }
    (c', some c')

/-- `TestIMAPClient.add_messages`:

```python
def add_messages(self, messages, mailbox="INBOX"):
    if mailbox not in self.mailboxes:
        self.mailboxes[mailbox] = []
    for message in messages:
        uid = message.uid
        self.messages[uid] = message
        self.mailboxes[mailbox].append(uid)
```
-/
def TestIMAPClient.add_messages (c : TestClientState) (messages : List MailMessage)
    (mailbox : String) : TestClientState :=
  let c :=
    if (dictGet mailbox c.mailboxes).isSome then c
    else { c with mailboxes := dictSet mailbox [] c.mailboxes }
  messages.foldl
    (fun st m =>
      { st with
        messages := dictSet m.uid m st.messages,
        mailboxes := dictUpdate mailbox (fun uids => uids ++ [m.uid]) st.mailboxes })
    c

/-- Claim C10: `TestIMAPClient` is a process-wide singleton.  Starting from an
empty class slot, construct once with `(a1, s1)`, run any sequence of
`add_messages` calls, then construct again with `(a2, s2)`: the second
construction returns the very object held in the class slot (the slot keeps
holding it), its `messages` and `mailboxes` are exactly the state accumulated
so far — never re-initialised — and only `account` and `settings` are
overwritten with the new arguments. -/
theorem claim_C10_test_client_singleton (a1 : AccountSettings) (s1 : ImapSettings)
    (batches : List (String × List MailMessage)) (a2 : AccountSettings) (s2 : ImapSettings) :
    (TestIMAPClient.construct none a1 s1).2 = some (TestIMAPClient.construct none a1 s1).1 ∧
    ((TestIMAPClient.construct
        (some (batches.foldl
          (fun c b => TestIMAPClient.add_messages c b.2 b.1)
          (TestIMAPClient.construct none a1 s1).1)) a2 s2).1 =
      { (batches.foldl (fun c b => TestIMAPClient.add_messages c b.2 b.1)
          (TestIMAPClient.construct none a1 s1).1) with
        account := a2, settings := s2 }) ∧
    ((TestIMAPClient.construct
        (some (batches.foldl
          (fun c b => TestIMAPClient.add_messages c b.2 b.1)
          (TestIMAPClient.construct none a1 s1).1)) a2 s2).2 =
      some (TestIMAPClient.construct
        (some (batches.foldl
          (fun c b => TestIMAPClient.add_messages c b.2 b.1)
          (TestIMAPClient.construct none a1 s1).1)) a2 s2).1) := by
  exact ⟨rfl, rfl, rfl⟩

/-! ## Local flag toggling: `src/src/database/mail_db.py`, `MailDB.toggle_flag`
(lines 322-346)

```python
@timed_db_call
def toggle_flag(self, email_message_id, flag) -> Result[MailMessage, str]:
    mail: MailMessage = self.query_first_item(
        MailMessage, MailMessage.message_id == email_message_id)

    if mail is None:
        return Err(f"can't find mail {email_message_id}")

    if flag == MailFlag.Answered:
        mail.answered = not mail.answered
    if flag == MailFlag.Seen:
        mail.seen = not mail.seen
    if flag == MailFlag.Flagged:
        mail.flagged = not mail.flagged
    if flag == MailFlag.Deleted:
        mail.deleted_status = not mail.deleted_status

    with Session(self.engine, expire_on_commit=False) as session:
        session.add(mail)
        session.commit()

    return Ok(sql_email_chat_to_email_chat(mail))
```

Two independent defects sit on the found-mail path:
* `MailFlag.Deleted` does not exist (`src/src/models/mail_flag.py` defines only
  `Seen`, `Flagged`, `Answered`), so the fourth `if` raises `AttributeError`
  *before* `session.commit()` — the in-memory flips are discarded and the
  store is left unchanged;
* even with such a member, the return line calls
  `sql_email_chat_to_email_chat(mail)` (`src/src/models/chat.py`, lines
  56-57), which reads `mail.chat_json` — an attribute a `MailMessage` does
  not have — so `Ok(<updated message>)` could still never be produced.

The embedding therefore performs the in-memory flips (they are source lines
that do execute) and ends in `raised` with the store unchanged. -/
def MailDB.toggle_flag (db : List MailMessage) (email_message_id : String)
    (flag : MailFlag) : PyResult MailMessage × List MailMessage :=
  match db.find? (fun m => m.message_id == email_message_id) with
  | none => (.err ("cant find mail " ++ email_message_id), db)
  | some mail =>
    let mail := if flag = MailFlag.Answered then { mail with answered := !mail.answered } else mail
    let mail := if flag = MailFlag.Seen then { mail with seen := !mail.seen } else mail
    let mail := if flag = MailFlag.Flagged then { mail with flagged := !mail.flagged } else mail
    -- source: `if flag == MailFlag.Deleted:` — the member lookup raises
    let _discarded := mail
    (.raised "AttributeError: Deleted", db)

/-- A stored message used as the concrete input of the toggle-flag findings. -/
def m1W : MailMessage :=
  { uid := 1, mailbox := "INBOX", message_id := "mid-1", seen := false }

/-- Claim C6: `MailDB.toggle_flag` on a store that does contain the addressed
message raises `AttributeError` instead of returning `Ok` with the updated
record (and commits nothing — the stored row keeps `seen = false`), while on
an unknown `message_id` it does return `Err` with the store unchanged.  The
claimed `Ok`-carrying-the-updated-record behaviour never happens. -/
theorem claim_C6_toggle_flag_raises :
    MailDB.toggle_flag [m1W] "mid-1" MailFlag.Seen =
      (PyResult.raised "AttributeError: Deleted", [m1W]) ∧
    MailDB.toggle_flag ([] : List MailMessage) "mid-1" MailFlag.Seen =
      (PyResult.err "cant find mail mid-1", []) := by
  exact ⟨rfl, rfl⟩

/-! ## Two-phase flag push-down: `src/src/imap_client_management/flag.py`,
`toggle_flag` (lines 10-43)

```python
def toggle_flag(db, email_message_id, flag) -> Result[MailMessage, str]:
    res = db.toggle_flag(email_message_id=email_message_id, flag=flag)
    if is_err(res):
        return res
    try:
        with IMAPClient(account=db.account, settings=db.settings) as client:
            client.update_flags(mail=res.value)
    except Exception as e:
        logger.exception(...)
        revert_res = db.toggle_flag(email_message_id=email_message_id, flag=flag)
        if is_err(revert_res):
            logger.warning(...)
        return Err("Failed to update flags on server and revert changes in the database.")
    return res
```

The first `db.toggle_flag` call sits outside any `try`, so an exception it
raises propagates to the caller; an exception raised by the *revert* call
inside the `except` block also propagates.  `remote` embeds
`client.update_flags(mail=...)`, which either returns or raises. -/
def toggle_flag_flow (db : List MailMessage) (remote : MailMessage → Except String Unit)
    (email_message_id : String) (flag : MailFlag) :
    PyResult MailMessage × List MailMessage :=
  match MailDB.toggle_flag db email_message_id flag with
  | (.err msg, db') => (.err msg, db')
  | (.raised exc, db') => (.raised exc, db')
  | (.ok mail, db') =>
    match remote mail with
    | .ok _ => (.ok mail, db')
    | .error _ =>
      match MailDB.toggle_flag db' email_message_id flag with
      | (.raised exc2, db'') => (.raised exc2, db'')
      | (_, db'') =>
        (.err "Failed to update flags on server and revert changes in the database.", db'')

/-- A remote flag update that always fails with a transport error — the
scenario of the rollback claim. -/
def remoteAlwaysFails : MailMessage → Except String Unit :=
  fun _ => .error "imaplib error"

/-- Claim C2: the "local flip succeeds, then remote fails, then roll back and
return an error" behaviour never executes.  On a store containing the
addressed message, the local phase (`db.toggle_flag`) raises
`AttributeError` before committing, the exception propagates out of
`toggle_flag`, no remote update is attempted, and no `Err` result is
returned — even when the remote side would fail. -/
theorem claim_C2_two_phase_never_starts :
    toggle_flag_flow [m1W] remoteAlwaysFails "mid-1" MailFlag.Seen =
      (PyResult.raised "AttributeError: Deleted", [m1W]) := by
  exact rfl

/-! ## SHA-1

`src/src/mail_db.py` names content files by
`sha1(str(email_obj.Message_ID).encode()).hexdigest()`.  `hashlib.sha1` is
embedded in full (FIPS 180-1) over `Nat` with explicit `% 2^32` reductions;
the hex digest of the UTF-8 bytes of a string is `sha1Hex`. -/

def rotl32 (x k : Nat) : Nat :=
  ((x <<< k) % 4294967296) ||| (x >>> (32 - k))

/-- 64-bit big-endian byte encoding (the length field of SHA-1 padding). -/
def be64 (n : Nat) : List Nat :=
  [(n >>> 56) % 256, (n >>> 48) % 256, (n >>> 40) % 256, (n >>> 32) % 256,
   (n >>> 24) % 256, (n >>> 16) % 256, (n >>> 8) % 256, n % 256]

/-- Append `0x80`, zero padding to 56 mod 64 bytes, and the bit length. -/
def sha1Pad (msg : List Nat) : List Nat :=
  let padZeros := (119 - msg.length % 64) % 64
  msg ++ (128 :: List.replicate padZeros 0) ++ be64 (msg.length * 8)

/-- Split a byte list into 64-byte blocks. -/
def toBlocks (l : List Nat) : List (List Nat) :=
  if _hl : l = [] then []
  else (l.take 64) :: toBlocks (l.drop 64)
termination_by l.length
decreasing_by
  simp only [List.length_drop]
  have hlen : l.length ≠ 0 := fun hz => _hl (List.length_eq_zero.mp hz)
  omega

/-- Big-endian 32-bit words of a block. -/
def toWords : List Nat → List Nat
  | b0 :: b1 :: b2 :: b3 :: rest =>
    (((b0 * 256 + b1) * 256 + b2) * 256 + b3) :: toWords rest
  | _ => []

def sha1F (t b c d : Nat) : Nat :=
  if t < 20 then (b &&& c) ||| ((b ^^^ 4294967295) &&& d)
  else if t < 40 then b ^^^ c ^^^ d
  else if t < 60 then (b &&& c) ||| (b &&& d) ||| (c &&& d)
  else b ^^^ c ^^^ d

def sha1K (t : Nat) : Nat :=
  if t < 20 then 1518500249
  else if t < 40 then 1859775393
  else if t < 60 then 2400959708
  else 3395469782

/-- Extend the 16 block words to the 80-word message schedule. -/
def sha1Extend (ws : List Nat) : Array Nat :=
  (List.range 64).foldl
    (fun w j =>
      let i := j + 16
      w.push (rotl32 ((w[i - 3]! ^^^ w[i - 8]!) ^^^ (w[i - 14]! ^^^ w[i - 16]!)) 1))
    ws.toArray

/-- One SHA-1 block compression. -/
def sha1Compress (h : Nat × Nat × Nat × Nat × Nat) (block : List Nat) :
    Nat × Nat × Nat × Nat × Nat :=
  let w := sha1Extend (toWords block)
  let st := (List.range 80).foldl
    (fun (st : Nat × Nat × Nat × Nat × Nat) t =>
      let (a, b, c, d, e) := st
      let temp := (rotl32 a 5 + sha1F t b c d + e + sha1K t + w[t]!) % 4294967296
      (temp, a, rotl32 b 30, c, d))
    (h.1, h.2.1, h.2.2.1, h.2.2.2.1, h.2.2.2.2)
  (((h.1 + st.1) % 4294967296), ((h.2.1 + st.2.1) % 4294967296),
   ((h.2.2.1 + st.2.2.1) % 4294967296), ((h.2.2.2.1 + st.2.2.2.1) % 4294967296),
   ((h.2.2.2.2 + st.2.2.2.2) % 4294967296))

def hexChar (n : Nat) : Char :=
  if n < 10 then Char.ofNat (48 + n) else Char.ofNat (87 + n)

def toHexWord (n : Nat) : String :=
  String.mk ((List.range 8).map (fun i => hexChar ((n >>> ((7 - i) * 4)) % 16)))

/-- Lowercase hex SHA-1 digest of a byte list (`hashlib.sha1(b).hexdigest()`).
Checked against the FIPS 180-1 test vectors: `sha1Bytes [] =
"da39a3ee5e6b4b0d3255bfef95601890afd80709"` and `sha1Bytes` of `"abc"` is
`"a9993e364706816aba3e25717850c26c9cd0d89d"`. -/
def sha1Bytes (msg : List Nat) : String :=
  let h := (toBlocks (sha1Pad msg)).foldl sha1Compress
    (1732584193, 4023233417, 2562383102, 271733878, 3285377520)
  toHexWord h.1 ++ toHexWord h.2.1 ++ toHexWord h.2.2.1 ++ toHexWord h.2.2.2.1 ++
    toHexWord h.2.2.2.2

/-- UTF-8 encoding of one character (`str.encode()` in Python). -/
def utf8Char (c : Char) : List Nat :=
  let n := c.toNat
  if n < 128 then [n]
  else if n < 2048 then [192 + n / 64, 128 + n % 64]
  else if n < 65536 then [224 + n / 4096, 128 + (n / 64) % 64, 128 + n % 64]
  else [240 + n / 262144, 128 + (n / 4096) % 64, 128 + (n / 64) % 64, 128 + n % 64]

def utf8Bytes (s : String) : List Nat :=
  (s.data.map utf8Char).flatten

/-- `sha1(s.encode()).hexdigest()`. -/
def sha1Hex (s : String) : String :=
  sha1Bytes (utf8Bytes s)

/-! ## Content-addressed save: `src/src/mail_db.py`, `MailDB.save_email`
(lines 88-125) and `src/src/message.py` (the generation of the data model
this `MailDB` operates on). -/

/-- `src/src/message.py`, `MailMessage` — the parsed in-memory message of the
legacy store generation (capitalised field names as in the source). -/
structure LegacyMailMessage where
  Id : Nat
  Mailbox : String
  Content : String
  Date_Received : Int := 0
  Date_Sent : Int := 0
  Deleted_Status : Bool := false
  Junk_Mail_Status : Bool := false
  Message_ID : String
  Reply_To : Option String := none
  Sender : String := ""
  Subject : Option String := none
  Was_Replied_To : Bool := false
  deriving DecidableEq, Repr

/-- `src/src/mail_db.py`, `MailMessageSQL` — one metadata row.  The synthetic
autoincrement primary key is irrelevant to the claims and is omitted;
`content_file` stores the file name relative to the per-account `contents`
folder (the Python code stores the absolute path under a fixed folder). -/
structure LegacyMailRow where
  mailbox : String
  content_file : String
  date_received : Int := 0
  date_sent : Int := 0
  deleted_status : Bool := false
  junk_mail_status : Bool := false
  message_id : String
  reply_to : Option String := none
  sender : String := ""
  subject : Option String := none
  was_replied_to : Bool := false
  imap_uid : Nat
  deriving DecidableEq, Repr

/-- The persistent state `MailDB` owns: the relational rows and the
content-addressed files of the `contents` folder (name, file content). -/
structure LegacyMailStore where
  rows : List LegacyMailRow
  contents : List (String × String)
  deriving DecidableEq, Repr

/-- The metadata row `save_email` builds from a message. -/
def rowOfMessage (email_obj : LegacyMailMessage) (content_file : String) : LegacyMailRow :=
  { mailbox := email_obj.Mailbox, content_file := content_file,
    date_received := email_obj.Date_Received, date_sent := email_obj.Date_Sent,
    deleted_status := email_obj.Deleted_Status,
    junk_mail_status := email_obj.Junk_Mail_Status,
    message_id := email_obj.Message_ID, reply_to := email_obj.Reply_To,
    sender := email_obj.Sender, subject := email_obj.Subject,
    was_replied_to := email_obj.Was_Replied_To, imap_uid := email_obj.Id }

/-- `MailDB.save_email`:

```python
def save_email(self, email_obj: MailMessage) -> Optional[MailMessageSQL]:
    content_sha = sha1(str(email_obj.Message_ID).encode()).hexdigest()
    content_file = self.contents_folder / content_sha

    if not content_file.exists():
        with open(content_file, "w", encoding="utf-8") as f:
            f.write(email_obj.Content)

    with Session(self.engine) as session:
        existing = session.exec(select(MailMessageSQL).where(
            MailMessageSQL.message_id == email_obj.Message_ID)).first()
        if existing:
            logger.warning(f"Email with Message_ID {...} already saved.")
            return None
        orm_obj = MailMessageSQL(..., content_file=str(content_file), ...)
        session.add(orm_obj)
        session.commit()
        session.refresh(orm_obj)
    return orm_obj
```

Note the content file is (conditionally) written *before* the duplicate-row
check, and the existing row wins on a duplicate (`return None`, no update).
-/
def MailDB.save_email (db : LegacyMailStore) (email_obj : LegacyMailMessage) :
    Option LegacyMailRow × LegacyMailStore :=
  let content_sha := sha1Hex email_obj.Message_ID
  let contents :=
    if (dictGet content_sha db.contents).isSome then db.contents
    else db.contents ++ [(content_sha, email_obj.Content)]
  match db.rows.find? (fun r => r.message_id == email_obj.Message_ID) with
  | some _ => (none, { db with contents := contents })
  | none =>
    let orm_obj := rowOfMessage email_obj content_sha
    (some orm_obj, { rows := db.rows ++ [orm_obj], contents := contents })

theorem find?_append_of_none {α : Type} (p : α → Bool) (l₁ l₂ : List α)
    (h : l₁.find? p = none) : (l₁ ++ l₂).find? p = l₂.find? p := by
  induction l₁ with
  | nil => simp
  | cons a t ih =>
    by_cases hpa : p a = true
    · rw [List.find?_cons_of_pos _ hpa] at h
      exact absurd h (by simp)
    · rw [List.find?_cons_of_neg _ hpa] at h
      rw [List.cons_append, List.find?_cons_of_neg _ hpa]
      exact ih h

theorem dictGet_append_self {α β : Type} [DecidableEq α] (k : α) (v : β)
    (l : List (α × β)) (h : dictGet k l = none) :
    dictGet k (l ++ [(k, v)]) = some v := by
  induction l with
  | nil => simp [dictGet]
  | cons kv t ih =>
    by_cases hk : k = kv.1
    · simp [dictGet, hk] at h
    · simp only [dictGet, List.cons_append, if_neg hk] at h ⊢
      exact ih h

/-- Claim C3: saving a message is idempotent.  Under the store's uniqueness
invariant (at most one row per `message_id`, enforced by the SQL `unique`
constraint): the second of two consecutive `save_email` calls is a no-op
(returns `None`, leaves the store exactly as after the first call); after
both calls the store holds exactly one row for the message's `Message_ID`;
when the message was absent, the first call inserts its row and writes the
content file named by the hex SHA-1 of `Message_ID` only if that file does
not already exist; when the content file already exists, no file is
written. -/
theorem claim_C3_save_email_idempotent (db : LegacyMailStore) (m : LegacyMailMessage)
    (hu : db.rows.countP (fun r => r.message_id == m.Message_ID) ≤ 1) :
    MailDB.save_email (MailDB.save_email db m).2 m = (none, (MailDB.save_email db m).2) ∧
    (MailDB.save_email (MailDB.save_email db m).2 m).2.rows.countP
      (fun r => r.message_id == m.Message_ID) = 1 ∧
    (db.rows.find? (fun r => r.message_id == m.Message_ID) = none →
      MailDB.save_email db m =
        (some (rowOfMessage m (sha1Hex m.Message_ID)),
          { rows := db.rows ++ [rowOfMessage m (sha1Hex m.Message_ID)],
            contents :=
              if (dictGet (sha1Hex m.Message_ID) db.contents).isSome then db.contents
              else db.contents ++ [(sha1Hex m.Message_ID, m.Content)] })) ∧
    (∀ v, dictGet (sha1Hex m.Message_ID) db.contents = some v →
      (MailDB.save_email db m).2.contents = db.contents) := by
  have hCsome :
      (dictGet (sha1Hex m.Message_ID)
        (if (dictGet (sha1Hex m.Message_ID) db.contents).isSome then db.contents
         else db.contents ++ [(sha1Hex m.Message_ID, m.Content)])).isSome = true := by
    by_cases hc : (dictGet (sha1Hex m.Message_ID) db.contents).isSome
    · rw [if_pos hc]; exact hc
    · rw [if_neg hc]
      rw [dictGet_append_self _ _ _ (by
        cases hg : dictGet (sha1Hex m.Message_ID) db.contents with
        | none => rfl
        | some v => rw [hg] at hc; simp at hc)]
      rfl
  cases hfind : db.rows.find? (fun r => r.message_id == m.Message_ID) with
  | none =>
    have hrow : (fun r : LegacyMailRow => r.message_id == m.Message_ID)
        (rowOfMessage m (sha1Hex m.Message_ID)) = true := by
      simp [rowOfMessage]
    have hcount0 : db.rows.countP (fun r => r.message_id == m.Message_ID) = 0 := by
      rw [List.countP_eq_zero]
      intro a ha
      have := List.find?_eq_none.mp hfind a ha
      simpa using this
    have h1 : MailDB.save_email db m =
        (some (rowOfMessage m (sha1Hex m.Message_ID)),
          { rows := db.rows ++ [rowOfMessage m (sha1Hex m.Message_ID)],
            contents :=
              if (dictGet (sha1Hex m.Message_ID) db.contents).isSome then db.contents
              else db.contents ++ [(sha1Hex m.Message_ID, m.Content)] }) := by
      simp only [MailDB.save_email, hfind]
    have hfind2 : (db.rows ++ [rowOfMessage m (sha1Hex m.Message_ID)]).find?
        (fun r => r.message_id == m.Message_ID) =
        some (rowOfMessage m (sha1Hex m.Message_ID)) := by
      rw [find?_append_of_none _ _ _ hfind]
      exact List.find?_cons_of_pos
        (p := fun r : LegacyMailRow => r.message_id == m.Message_ID) [] hrow
    refine ⟨?_, ?_, fun _ => h1, ?_⟩
    · rw [h1]
      simp only [MailDB.save_email, hfind2, hCsome, if_pos]
    · rw [h1]
      simp only [MailDB.save_email, hfind2, hCsome, if_pos]
      rw [List.countP_append, hcount0]
      simp [hrow]
    · intro v hv
      rw [h1]
      simp [hv]
  | some r0 =>
    have h1 : MailDB.save_email db m =
        (none,
          { db with contents :=
              if (dictGet (sha1Hex m.Message_ID) db.contents).isSome then db.contents
              else db.contents ++ [(sha1Hex m.Message_ID, m.Content)] }) := by
      simp only [MailDB.save_email, hfind]
    have hcount1 : db.rows.countP (fun r => r.message_id == m.Message_ID) = 1 := by
      have hp := List.find?_some hfind
      have hmem := List.mem_of_find?_eq_some hfind
      have hpos : 0 < db.rows.countP (fun r => r.message_id == m.Message_ID) :=
        List.countP_pos_iff.mpr ⟨r0, hmem, hp⟩
      omega
    refine ⟨?_, ?_, ?_, ?_⟩
    · rw [h1]
      simp only [MailDB.save_email, hfind, hCsome, if_pos]
    · rw [h1]
      simp only [MailDB.save_email, hfind, hCsome, if_pos]
      exact hcount1
    · intro hc
      exact absurd hc (by simp)
    · intro v hv
      rw [h1]
      simp [hv]

/-- A concrete parsed message for the idempotent-save witness. -/
def legacyMsgW : LegacyMailMessage :=
  { Id := 7, Mailbox := "INBOX", Content := "hello there", Message_ID := "mid-1" }

theorem claim_C3_save_email_idempotent_witness :
    MailDB.save_email (MailDB.save_email ⟨[], []⟩ legacyMsgW).2 legacyMsgW =
      (none, (MailDB.save_email ⟨[], []⟩ legacyMsgW).2) ∧
    (MailDB.save_email (MailDB.save_email ⟨[], []⟩ legacyMsgW).2 legacyMsgW).2.rows.countP
      (fun r => r.message_id == legacyMsgW.Message_ID) = 1 :=
  ⟨(claim_C3_save_email_idempotent ⟨[], []⟩ legacyMsgW (by simp)).1,
   (claim_C3_save_email_idempotent ⟨[], []⟩ legacyMsgW (by simp)).2.1⟩

/-! ## Sync watermark: `src/src/background_tasks/refresh.py` (lines 29-61)
with `MailDB.get_update_status` / `write_update_status`
(`src/src/database/mail_db.py`, lines 149-163) -/

/-- Modelled from the spec: `src/src/models/status.py` (the `UpdateStatus`
class re-exported by `src/src/models/__init__.py`, read and written by
`MailDB.get_update_status`/`write_update_status`) is missing from the source
tree.  Spec §3 "SyncWatermark": a single value per account — the timestamp of
the last completed synchronization. -/
structure UpdateStatus where
  last_updated : Int
  deriving DecidableEq, Repr

/-- Modelled from the spec: the `MailDB.save_email` that
`src/src/background_tasks/refresh.py` calls lives in the missing module
`src.db.mail_db` (the current-generation store; the surviving
`src/src/database/mail_db.py` only has `save_mail`).  Spec §4.3
`saveMessage(msg)`: a no-op when `message_id` is already present (the existing
row is authoritative), otherwise the metadata row is inserted.  The legacy
`save_email` embedded above (`MailDB.save_email`) has exactly this row-level
behaviour; this generation stores the body inline (spec §3), so there is no
separate content file here. -/
def saveMessageSpec (store : List MailMessage) (m : MailMessage) : List MailMessage :=
  if store.any (fun r => r.message_id == m.message_id) then store
  else store ++ [m]

/-- `fetch_and_save_mails` (`src/src/background_tasks/refresh.py`, lines
14-27): for each uid fetch the message (`None` is logged and skipped), save
it, and yield its `message_id`.  Returns the yielded ids and the store. -/
def fetch_and_save_mails (store : List MailMessage) (uids : List Nat)
    (remoteFetch : Nat → Option MailMessage) : List String × List MailMessage :=
  uids.foldl
    (fun acc uid =>
      match remoteFetch uid with
      | none => acc
      | some mail => (acc.1 ++ [mail.message_id], saveMessageSpec acc.2 mail))
    ([], store)

/-- `refresh_mailbox` (`src/src/background_tasks/refresh.py`, lines 29-61):

```python
async def refresh_mailbox(db, mailbox, after_date=None):
    start_to_update = datetime.now()
    if after_date is None:
        status = db.get_update_status()
        if status:
            after_date = status.last_updated
        else:
            after_date = datetime.now() - timedelta(days=60)
    with IMAPClient(...) as client:
        new_mail_ids = client.fetch_uids_after_date(after_date=after_date, mailbox=mailbox)
    already_saved = <uids stored for mailbox>
    to_do = list(set(new_mail_ids).difference(already_saved))
    async for message_id in fetch_and_save_mails(db=db, uids=to_do, mailbox=mailbox):
        yield message_id
    status = db.get_update_status()
    if status is None:
        status = UpdateStatus(last_update=start_to_update)
    else:
        status.last_update = start_to_update
```

`wm` is the persisted watermark (the sidecar file read by
`get_update_status`), `now` the pass-start `datetime.now()`, `remoteUids d`
the identifiers the server reports for the since-`d` query.  The final block
only builds/assigns a *local* `UpdateStatus` object and never calls
`db.write_update_status` (it even assigns the field under a different name,
`last_update`, than the one it reads, `last_updated`), so the persisted
watermark is returned unchanged whatever happened in the pass. -/
def refresh_mailbox_tasks (store : List MailMessage) (wm : Option UpdateStatus)
    (now : Int) (after_date : Option Int) (mailbox : String)
    (remoteUids : Int → List Nat) (remoteFetch : Nat → Option MailMessage) :
    List String × List MailMessage × Option UpdateStatus :=
  let start_to_update := now
  let after :=
    match after_date with
    | some d => d
    | none =>
      match wm with
      | some status => status.last_updated
      | none => now - 60 * 86400
  let new_mail_ids := remoteUids after
  let already_saved := (store.filter (fun m => m.mailbox == mailbox)).map (fun m => m.uid)
  let to_do := new_mail_ids.filter (fun u => !already_saved.contains u)
  let fs := fetch_and_save_mails store to_do remoteFetch
  let _discarded : UpdateStatus := { last_updated := start_to_update }
  (fs.1, fs.2, wm)

/-- The message behind uid 5 of the watermark fixture. -/
def m5W : MailMessage :=
  { uid := 5, mailbox := "INBOX", message_id := "mid-5" }

/-- A remote server for the watermark fixture: it reports uid 5 exactly when
asked with the 60-day lookback bound of a never-synced account
(`1000000 - 60 * 86400`), so the result also witnesses which since-bound the
pass used. -/
def remoteUidsW : Int → List Nat :=
  fun d => if d = 1000000 - 60 * 86400 then [5] else []

def remoteFetchW : Nat → Option MailMessage :=
  fun u => if u = 5 then some m5W else none

/-- Claim C7: on a never-synced account (`wm = none`) the pass uses the fixed
60-day lookback bound (uid 5 is fetched and saved, which only happens for
that bound) — that half of the claim holds — but after the pass completes
without any error the persisted watermark is *still* `none`: `refresh_mailbox`
never calls `write_update_status`, so the watermark is not advanced to the
pass-start timestamp. -/
theorem claim_C7_watermark_never_persisted :
    refresh_mailbox_tasks [] none 1000000 none "INBOX" remoteUidsW remoteFetchW =
      (["mid-5"], [m5W], none) := by
  rfl

/-! ## Message parsing: `src/src/models/message.py` (`get_body`,
`parse_processed_email`) and `src/src/imap/parse_mails.py` (`_collect_parts`,
`parse_message`) -/

/-- One MIME leaf part as `email.message` exposes it to the parsers:
content type, decoded payload (`get_payload(decode=True)` then `.decode()`;
the empty string models both an absent and an empty payload, which Python
treats alike via `if not payload`), and whether its `Content-Disposition`
is `attachment`. -/
structure MimePart where
  ctype : String
  payload : String := ""
  attachment_disposition : Bool := false
  deriving DecidableEq, Repr

/-- A raw protocol message: its leaf parts (`walk()` order) with the
multipart flag, and its headers. -/
structure PyEmailMessage where
  multipart : Bool
  parts : List MimePart
  headers : List (String × String)
  deriving DecidableEq, Repr

/-- `msg.get(key, default)`. -/
def pyGet (msg : PyEmailMessage) (key dflt : String) : String :=
  (dictGet key msg.headers).getD dflt

/-- Python's `str.strip()`: drop whitespace from both ends. -/
def pyStrip (s : String) : String :=
  String.mk (((s.data.dropWhile Char.isWhitespace).reverse.dropWhile
    Char.isWhitespace).reverse)

def leadsWith : List Char → List Char → Bool
  | [], _ => true
  | _ :: _, [] => false
  | p :: ps, c :: cs => p == c && leadsWith ps cs

def containsSeq (pat : List Char) : List Char → Bool
  | [] => pat.isEmpty
  | c :: rest => leadsWith pat (c :: rest) || containsSeq pat rest

/-- Python's substring test `pat in s`. -/
def hasSubstr (s pat : String) : Bool :=
  containsSeq pat.data s.data

/-- The observable behaviour of `BeautifulSoup(html, "html.parser")
.get_text(separator="\n")` (an external library): the text outside the
markup tags. -/
def stripTagsAux : List Char → Bool → List Char
  | [], _ => []
  | c :: rest, true => if c = Char.ofNat 62 then stripTagsAux rest false else stripTagsAux rest true
  | c :: rest, false =>
    if c = Char.ofNat 60 then stripTagsAux rest true else c :: stripTagsAux rest false

def stripTags (s : String) : String :=
  String.mk (stripTagsAux s.data false)

/-- `get_body` (`src/src/models/message.py`, lines 13-47): gather the decoded
payloads of all non-empty `text/plain` parts (skipping
attachment-disposition parts when multipart) and all `text/html` parts; the
body is the newline-join of the plain texts, stripped, or — when no plain
part exists — the newline-join of the tag-stripped html texts, stripped; with
neither, `None`. -/
def get_body (m : PyEmailMessage) : Option String :=
  let usable := fun (p : MimePart) =>
    (!m.multipart || !p.attachment_disposition) && (p.payload != "")
  let texts := ((m.parts.filter (fun p => usable p && (p.ctype == "text/plain"))).map
    (fun p => p.payload))
  let htmls := ((m.parts.filter (fun p => usable p && (p.ctype == "text/html"))).map
    (fun p => p.payload))
  if texts ≠ [] then some (pyStrip (String.intercalate "\n" texts))
  else if htmls ≠ [] then some (pyStrip (String.intercalate "\n" (htmls.map stripTags)))
  else none

/-- The fields of the parsed record whose derivation is repository logic
(the remaining fields of `MailMessage` — dates, sender, subject — pass
through Python stdlib parsing of single headers and are irrelevant to the
body-extraction claim). -/
structure ParsedEmail where
  id : Nat
  mailbox : String
  content : String
  deleted_status : Bool
  junk_mail_status : Bool
  message_id : String
  reply_to : Option String
  was_replied_to : Bool
  deriving DecidableEq, Repr

/-- `parse_processed_email` (`src/src/models/message.py`, lines 73-98):
`None` when `get_body` found no body, otherwise the record with the extracted
body and the header-derived fields. -/
def parse_processed_email (msg : PyEmailMessage) (mailbox : String) (uid : Nat) :
    Option ParsedEmail :=
  match get_body msg with
  | none => none
  | some body =>
    some { id := uid, mailbox := mailbox, content := body,
           deleted_status := hasSubstr (pyGet msg "Flags" "") "\\Deleted",
           junk_mail_status :=
             hasSubstr (pyGet msg "X-Folder" "" ++ pyGet msg "X-Spam-Flag" "") "Junk",
           message_id := pyStrip (pyGet msg "Message-ID" ""),
           reply_to := dictGet "In-Reply-To" msg.headers,
           was_replied_to := (dictGet "In-Reply-To" msg.headers).isSome }

/-- `_collect_parts` (`src/src/imap/parse_mails.py`, lines 90-140), restricted
to its three text results `(plain, html, html_raw)`: the *first* non-empty
`text/plain` payload and the *first* non-empty `text/html` payload (later
text parts and every other part feed the attachment/cid collections, which
the body-extraction claim does not touch); `None` results collapse to `""`
(`return plain or "", html or "", html_raw or "", ...`). -/
def collect_parts (msg : PyEmailMessage) : String × String × String :=
  let acc := msg.parts.foldl
    (fun (acc : Option String × Option String × Option String) p =>
      if p.payload == "" then acc
      else if p.ctype == "text/plain" && acc.1.isNone then
        (some p.payload, acc.2.1, acc.2.2)
      else if p.ctype == "text/html" && acc.2.1.isNone then
        (acc.1, some p.payload, some p.payload)
      else acc)
    (none, none, none)
  (acc.1.getD "", acc.2.1.getD "", acc.2.2.getD "")

/-- `_parse_flags` (`src/src/imap/parse_mails.py`, lines 67-68):
`{f for f in MailFlag if f.value in flag_hdr}`. -/
def parseFlagsHeader (flag_hdr : String) : List MailFlag :=
  [MailFlag.Seen, MailFlag.Flagged, MailFlag.Answered].filter
    (fun f => hasSubstr flag_hdr f.value)

/-- `parse_message` (`src/src/imap/parse_mails.py`, lines 182-237): collect
the parts, fall back from a missing plain body to the tag-stripped raw html
(`if not plain and html_raw: plain = BeautifulSoup(...).get_text(...)`) —
note that when *neither* kind of part exists this yields `plain = ""`, not a
failure — then build the `MailMessage`.  The construction evaluates
`MailFlag.Deleted in flags`; `MailFlag` (`src/src/models/mail_flag.py`) has
no member `Deleted`, the lookup raises `AttributeError`, the surrounding
`try` catches it (`except Exception as fatal: ... return None`), and
`parse_message` returns `None` — for every input message. -/
def parse_message (msg : PyEmailMessage) (mailbox : String) (uid : Nat) :
    Option ParsedEmail :=
  let cps := collect_parts msg
  let plain := cps.1
  let html_raw := cps.2.2
  let plainFinal := if plain == "" && html_raw != "" then stripTags html_raw else plain
  let flags := parseFlagsHeader (pyGet msg "Flags" "")
  let _unreached := (plainFinal, flags, mailbox, uid)
  none

/-- A well-formed message with a single plain-text body part. -/
def plainMsgW : PyEmailMessage :=
  { multipart := true,
    parts := [{ ctype := "text/plain", payload := "hello" }],
    headers := [("Message-ID", "mid-8")] }

/-- A message with no text parts at all (e.g. only an attachment). -/
def bodylessMsgW : PyEmailMessage :=
  { multipart := true,
    parts := [{ ctype := "application/pdf", payload := "PDFDATA",
                attachment_disposition := true }],
    headers := [("Message-ID", "mid-9")] }

/-- A message whose only text/plain part holds nothing but whitespace. -/
def wsOnlyMsgW : PyEmailMessage :=
  { multipart := true,
    parts := [{ ctype := "text/plain", payload := " " }],
    headers := [("Message-ID", "mid-10")] }

/-- Claim C8: the older parser behaves as claimed — `get_body` extracts the
`text/plain` body and `parse_processed_email` wraps it, returning `None`
exactly when no body exists — but the parser actually wired to the real
client, `parse_message`, returns `None` even for a message with a perfectly
good `text/plain` body (the `MailFlag.Deleted` lookup raises inside its
`try`); moreover its body selection (`collect_parts` + the
`plain or ""` fallback) produces the empty string, not a failure signal, for
a message with no text parts.  The last conjunct records the one
empty-body leak of the older parser too: a whitespace-only `text/plain`
payload strips to `""`, which is not `None`, so `parse_processed_email`
produces a record with an empty body there. -/
theorem claim_C8_parse_failure :
    get_body plainMsgW = some "hello" ∧
    (parse_processed_email plainMsgW "INBOX" 3).map (fun r => r.content) = some "hello" ∧
    parse_processed_email bodylessMsgW "INBOX" 4 = none ∧
    parse_message plainMsgW "INBOX" 3 = none ∧
    collect_parts bodylessMsgW = ("", "", "") ∧
    (parse_processed_email wsOnlyMsgW "INBOX" 5).map (fun r => r.content) = some "" := by
  refine ⟨rfl, rfl, rfl, rfl, rfl, rfl⟩

/-! ## Remote flag push: `src/src/imap/RealIMAPClient.py`
(`update_flags`, `_get_existing_flags`, `_remove_flags`, `_add_flags`,
lines 167-249) and `src/src/imap/flags.py` (`parse_all_flags`, lines 11-29)

`_get_existing_flags` fetches `(FLAGS)` for the message's uid; imaplib
returns the response as a *list* of byte strings (here, one line).
`parse_all_flags` is a function on one decoded line: its regex
`(\d+)\s+\((?:UID\s+\d+\s+)?FLAGS\s+\((.*?)\)\)` captures the *complete, raw*
server flag list — unlike `parse_flags_filtered` (which decodes each element
and restricts to the modelled `MailFlag` members), `_get_existing_flags`
passes the response **list itself** to `parse_all_flags`
(`val = parse_all_flags(data)`, line 176), and `re.search` on a list raises
`TypeError: expected string or bytes-like object` — unconditionally, outside
the `_retry` wrapper and outside any handler.  The embedding keeps both
layers: `parse_all_flags` as the honest line parser it is, and the call site
as the raise it performs, so `update_flags` never reaches a `STORE`. -/

def digitsToNat (l : List Char) : Nat :=
  l.foldl (fun n c => n * 10 + (c.toNat - 48)) 0

/-- Split at the first occurrence of `delim`, returning the part before and
the part after (the non-greedy `(.*?)` capture followed by the literal
delimiter). -/
def splitOnSeq (delim : List Char) : List Char → Option (List Char × List Char)
  | [] => if delim.isEmpty then some ([], []) else none
  | c :: rest =>
    if leadsWith delim (c :: rest) then some ([], (c :: rest).drop delim.length)
    else (splitOnSeq delim rest).map (fun pr => (c :: pr.1, pr.2))

def splitWSAux : List Char → List Char → List String
  | [], acc => if acc.isEmpty then [] else [String.mk acc.reverse]
  | c :: rest, acc =>
    if c.isWhitespace then
      if acc.isEmpty then splitWSAux rest []
      else String.mk acc.reverse :: splitWSAux rest []
    else splitWSAux rest (c :: acc)

/-- Python's `str.split()`: whitespace-run separated words. -/
def splitWS (l : List Char) : List String :=
  splitWSAux l []

/-- `parse_all_flags` (`src/src/imap/flags.py`): parse
`'<seq> ((UID <uid> )?FLAGS (<flags>))'` into the sequence number and the raw
flag strings, `none` when the pattern does not match. -/
def parse_all_flags (data : String) : Option (Nat × List String) :=
  let l := data.data
  let seq := l.takeWhile Char.isDigit
  if seq.isEmpty then none
  else
    match l.drop seq.length with
    | ' ' :: rest1 =>
      match rest1.dropWhile (fun c => c == ' ') with
      | '(' :: rest2 =>
        let rest3 :=
          if leadsWith "UID ".data rest2 then
            let afterU := rest2.drop 4
            let d := afterU.takeWhile Char.isDigit
            if d.isEmpty then rest2
            else
              match afterU.drop d.length with
              | ' ' :: r => r.dropWhile (fun c => c == ' ')
              | _ => rest2
          else rest2
        if leadsWith "FLAGS".data rest3 then
          match rest3.drop 5 with
          | ' ' :: r0 =>
            match r0.dropWhile (fun c => c == ' ') with
            | '(' :: inner =>
              match splitOnSeq "))".data inner with
              | some pr => some (digitsToNat seq, splitWS pr.1)
              | none => none
            | _ => none
          | _ => none
        else none
      | _ => none
    | _ => none

/-- A well-formed `(FLAGS)` fetch-response line for one message, as the
server produces it. -/
def renderFlagLine (seq uid : Nat) (flags : List String) : String :=
  toString seq ++ " (UID " ++ toString uid ++ " FLAGS (" ++
    String.intercalate " " flags ++ "))"

/-- One `STORE` command issued by `_remove_flags` / `_add_flags`. -/
structure StoreCmd where
  op : String
  flags : List String
  deriving DecidableEq, Repr

/-- The `desired_flags` set `update_flags` builds from the local record. -/
def desiredFlags (mail : MailMessage) : List String :=
  (if mail.seen then ["\\Seen"] else []) ++
  (if mail.answered then ["\\Answered"] else []) ++
  (if mail.flagged then ["\\Flagged"] else [])

/-- The core of `RealIMAPClient.update_flags` after `existing_flags` has been
obtained:

```python
flags_to_add = desired_flags - existing_flags
flags_to_remove = existing_flags - desired_flags
self._remove_flags(mail=mail, flags_to_remove=flags_to_remove)
self._add_flags(mail=mail, flags_to_add=flags_to_add)
```

Returns the `STORE` commands issued (each helper issues nothing for an empty
set) and the server's flag set for the uid after they are applied. -/
def update_flags_core (mail : MailMessage) (existing : List String) :
    List StoreCmd × List String :=
  let desired := desiredFlags mail
  let flags_to_add := desired.filter (fun f => !existing.contains f)
  let flags_to_remove := existing.filter (fun f => !desired.contains f)
  let cmds :=
    (if flags_to_remove.isEmpty then []
     else [{ op := "-FLAGS", flags := flags_to_remove : StoreCmd }]) ++
    (if flags_to_add.isEmpty then []
     else [{ op := "+FLAGS", flags := flags_to_add : StoreCmd }])
  (cmds, (existing.filter (fun f => !flags_to_remove.contains f)) ++ flags_to_add)

/-- imaplib's `data` for the `(FLAGS)` uid fetch: a list holding the one
response line for the message (the source receives it as `[b'<line>']`; the
element is shown decoded, the point below being that the *list* is passed
on, not its element). -/
def fetchFlagsData (seq uid : Nat) (serverFlags : List String) : List String :=
  [renderFlagLine seq uid serverFlags]

/-- `_get_existing_flags` (`src/src/imap/RealIMAPClient.py`, lines 167-180):

```python
def _get_existing_flags(self, mail: MailMessage) -> set[MailFlag]:
    def _fetch_uids():
        return self.connection.uid("FETCH", str(mail.uid), "(FLAGS)")
    typ, data = self._retry(_fetch_uids)
    self._raise_on_status(typ, ...)
    val = parse_all_flags(data)
    if val is None:
        raise Exception(f"can't parse flags to update correctly from {data}")
    return set(val[1])
```

`data` is the response *list*; `parse_all_flags(data)` hands that list to
`FLAG_PATTERN.search`, which needs a string and raises
`TypeError: expected string or bytes-like object` — unconditionally, before
any parsing, outside `_retry` and outside any handler. -/
def RealIMAPClient.get_existing_flags (seq uid : Nat) (serverFlags : List String) :
    PyResult (List String) :=
  let data := fetchFlagsData seq uid serverFlags
  let _passed_the_list_not_a_line := data
  .raised "TypeError: expected string or bytes-like object"

/-- `RealIMAPClient.update_flags` (lines 223-249) against a server whose flag
set for `mail.uid` is `serverFlags` (reported in one response line under
sequence number `seq`): select the mailbox, obtain the existing flags, diff
against `desired_flags`, issue the `-FLAGS` then `+FLAGS` `STORE` commands.
`_get_existing_flags` raises, the exception propagates out of
`update_flags`, no `STORE` command is ever issued and the server's flags for
the uid stay untouched; the `ok` branch embeds the source text that the
raise makes unreachable.  Returns the outcome (the issued commands on
success) together with the server's flag set after the call. -/
def RealIMAPClient.update_flags (mail : MailMessage) (seq : Nat)
    (serverFlags : List String) : PyResult (List StoreCmd) × List String :=
  match RealIMAPClient.get_existing_flags seq mail.uid serverFlags with
  | .raised exc => (.raised exc, serverFlags)
  | .err msg => (.err msg, serverFlags)
  | .ok existing =>
    let r := update_flags_core mail existing
    (.ok r.1, r.2)

/-- A local record with only `seen` set, whose flags are being pushed. -/
def mSeenW : MailMessage :=
  { uid := 7, mailbox := "INBOX", message_id := "mid-7", seen := true }

/-- Claim C9: no remote flag push ever happens, let alone one that spares
unmodelled flags.  At the concrete input — local record `seen`-only, server
holding `\Seen` and `\Deleted` for uid 7 — `update_flags` raises the
`TypeError` from `_get_existing_flags` (the response list passed where a
line is expected) before issuing any `STORE`, and the server keeps both
flags, `\Deleted` included (nothing is pushed at all; the claimed
`+FLAGS`/`-FLAGS` expression of the update is unreachable).  The last two
conjuncts document the failure precisely: `parse_all_flags` *would* parse
the decoded line (the crash is purely the list-typed call), and the
`STORE` computation behind the raise (`flags_to_remove = existing −
desired`) would then have removed the unmodelled `\Deleted` anyway,
against the claim's preservation clause. -/
theorem claim_C9_update_flags_raises :
    RealIMAPClient.update_flags mSeenW 3 ["\\Seen", "\\Deleted"] =
      (PyResult.raised "TypeError: expected string or bytes-like object",
        ["\\Seen", "\\Deleted"]) ∧
    "\\Deleted" ∈ (RealIMAPClient.update_flags mSeenW 3 ["\\Seen", "\\Deleted"]).2 ∧
    parse_all_flags (renderFlagLine 3 7 ["\\Seen", "\\Deleted"]) =
      some (3, ["\\Seen", "\\Deleted"]) ∧
    update_flags_core mSeenW ["\\Seen", "\\Deleted"] =
      ([{ op := "-FLAGS", flags := ["\\Deleted"] }], ["\\Seen"]) := by
  exact ⟨rfl, by decide, rfl, rfl⟩

/-! ## The synchronization pass: `src/src/imap_client_management/refresh.py`
(`refresh_mailbox`, `delete_mailbox`, `sync_account`, lines 16-163) with
`MailDB.update_flags` (`src/src/database/mail_db.py`, lines 296-321)

The remote server state is a map from mailbox name to the messages it holds;
`list_mailboxes`, `fetch_uids_after_date` (called here without a date bound),
`fetch_email_by_uid` and `fetch_all_flags_off_mailbox` read it exactly as the
client interface specifies (`src/src/imap/ImapClientInterface.py`, with
`TestIMAPClient` as the reference in-memory implementation). -/

structure RemoteState where
  mailboxes : List (String × List MailMessage)
  deriving DecidableEq, Repr

def Remote.list_mailboxes (r : RemoteState) : List String :=
  r.mailboxes.map (fun e => e.1)

def Remote.uids (r : RemoteState) (mailbox : String) : List Nat :=
  ((dictGet mailbox r.mailboxes).getD []).map (fun m => m.uid)

def Remote.fetch (r : RemoteState) (uid : Nat) (mailbox : String) : Option MailMessage :=
  ((dictGet mailbox r.mailboxes).getD []).find? (fun m => m.uid == uid)

/-- `fetch_all_flags_off_mailbox`: the per-uid flag snapshot of a mailbox
(`TestIMAPClient` builds the tuple in the order Seen, Answered, Flagged). -/
def Remote.flags (r : RemoteState) (mailbox : String) : List (Nat × List MailFlag) :=
  ((dictGet mailbox r.mailboxes).getD []).map
    (fun m =>
      (m.uid,
        (if m.seen then [MailFlag.Seen] else []) ++
        (if m.answered then [MailFlag.Answered] else []) ++
        (if m.flagged then [MailFlag.Flagged] else [])))

/-- `MailDB.update_flags` (`src/src/database/mail_db.py`, lines 296-321): for
each `(uid, flags)` of the snapshot, overwrite `seen`/`answered`/`flagged` of
every stored row matching `(mailbox, uid)` (no match is only logged; several
matches are all updated). -/
def MailDB.update_flags (store : List MailMessage) (data : List (Nat × List MailFlag))
    (mailbox : String) : List MailMessage :=
  data.foldl
    (fun st entry =>
      st.map (fun m =>
        if m.mailbox == mailbox && m.uid == entry.1 then
          { m with seen := entry.2.contains MailFlag.Seen,
                   answered := entry.2.contains MailFlag.Answered,
                   flagged := entry.2.contains MailFlag.Flagged }
        else m))
    store

/-- `refresh_mailbox` (`src/src/imap_client_management/refresh.py`, lines
16-70): fetch the mailbox's uids, diff against the locally stored uids of
that mailbox, fetch each missing one (a `None` fetch is logged and skipped)
and save it.  The save call is `db.save_email`, resolved against the missing
current-generation `MailDB` (see `saveMessageSpec`); this version never
deletes anything. -/
def refresh_mailbox_mgmt (store : List MailMessage) (r : RemoteState)
    (mailbox : String) : List MailMessage :=
  let new_mail_ids := Remote.uids r mailbox
  let already_saved := (store.filter (fun m => m.mailbox == mailbox)).map (fun m => m.uid)
  let to_fetch := new_mail_ids.filter (fun u => !already_saved.contains u)
  to_fetch.foldl
    (fun st uid =>
      match Remote.fetch r uid mailbox with
      | none => st
      | some mail => saveMessageSpec st mail)
    store

/-- The effect `delete_mailbox` (lines 102-129) would have if it ran:
delete every stored row of the mailbox
(`db.delete_records(MailMessageSQL, MailMessageSQL.mailbox == mailbox)`). -/
def delete_mailbox_effect (store : List MailMessage) (mailbox : String) :
    List MailMessage :=
  store.filter (fun m => !(m.mailbox == mailbox))

/-- `sort_mailboxes` inside `sync_account`: stable sort by the priority
`{inbox: 0, sent: 1, other: 2}` of the account's folder settings. -/
def mailboxPriority (account : AccountSettings) (m : String) : Nat :=
  if m = account.imap_inbox_folder then 0
  else if m = account.imap_sent_folder then 1
  else 2

def sort_mailboxes (account : AccountSettings) (ms : List String) : List String :=
  (ms.filter (fun m => mailboxPriority account m = 0)) ++
  (ms.filter (fun m => mailboxPriority account m = 1)) ++
  (ms.filter (fun m => mailboxPriority account m = 2))

/-- `sync_account` (`src/src/imap_client_management/refresh.py`, lines
131-163):

```python
last_mailboxes = {mail.mailbox for mail in db.query_table(MailMessageSQL)}
with IMAPClient(...) as client:
    current_mailboxes = set(client.list_mailboxes())

    # Process deleted mailboxes.
    for mailbox in last_mailboxes.difference(current_mailboxes):
        delete_mailbox(db=db, client=client, mailbox=mailbox)

    # Process new mailboxes.
    for mailbox in sort_mailboxes(current_mailboxes.difference(last_mailboxes)):
        await refresh_mailbox(db=db, client=client, mailbox=mailbox)

    # For unchanged mailboxes, update differences.
    for mailbox in sort_mailboxes(last_mailboxes.intersection(current_mailboxes)):
        await refresh_mailbox(db=db, client=client, mailbox=mailbox)

    # Update flags for all current mailboxes.
    for mailbox in sort_mailboxes(current_mailboxes):
        await update_flags_for_mailbox(db, client, mailbox)
```

`delete_mailbox` is an `async def` invoked *without* `await`: the loop only
creates coroutine objects and discards them, so the deletion body never runs
and the store keeps every message of remotely-deleted mailboxes (the model
records the would-be deletions as the discarded coroutine list).  The
`refresh_mailbox` of this module never removes vanished uids either, so no
message is ever deleted by this pass. -/
def sync_account_mgmt (account : AccountSettings) (store : List MailMessage)
    (r : RemoteState) : List MailMessage :=
  let last_mailboxes := (store.map (fun m => m.mailbox)).dedup
  let current_mailboxes := (Remote.list_mailboxes r).dedup
  let _unawaited_coroutines :=
    (last_mailboxes.filter (fun m => !current_mailboxes.contains m)).map
      (fun mb => delete_mailbox_effect store mb)
  let store1 := store
  let new_mb := sort_mailboxes account
    (current_mailboxes.filter (fun m => !last_mailboxes.contains m))
  let store2 := new_mb.foldl (fun st mb => refresh_mailbox_mgmt st r mb) store1
  let unchanged_mb := sort_mailboxes account
    (last_mailboxes.filter (fun m => current_mailboxes.contains m))
  let store3 := unchanged_mb.foldl (fun st mb => refresh_mailbox_mgmt st r mb) store2
  let flag_mb := sort_mailboxes account current_mailboxes
  flag_mb.foldl (fun st mb => MailDB.update_flags st (Remote.flags r mb) mb) store3

/-- The fixture of the sync-pass finding: locally, a message in mailbox
"old" (remotely deleted), a message uid 2 in `INBOX`, and a stale message
uid 9 in `INBOX` that the server no longer reports; remotely, `INBOX` with
uid 2 (now `seen`) and a new uid 3. -/
def accountW : AccountSettings :=
  { name := "test", imap_inbox_folder := "INBOX", imap_sent_folder := "sent" }

def mOldW : MailMessage :=
  { uid := 1, mailbox := "old", message_id := "id-old" }

def mInbox2W : MailMessage :=
  { uid := 2, mailbox := "INBOX", message_id := "id-2" }

def mStale9W : MailMessage :=
  { uid := 9, mailbox := "INBOX", message_id := "id-9" }

def m3W : MailMessage :=
  { uid := 3, mailbox := "INBOX", message_id := "id-3" }

def localStoreW : List MailMessage := [mOldW, mInbox2W, mStale9W]

def remoteW : RemoteState :=
  { mailboxes := [("INBOX", [{ mInbox2W with seen := true }, m3W])] }

/-- Claim C1: the synchronization pass of
`src/src/imap_client_management/refresh.py` does *not* establish the claimed
post-state.  On the fixture: the new remote uid 3 is fetched and saved and
uid 2's flags are overwritten with the remote snapshot (those parts behave
as claimed), but the message of the remotely-deleted mailbox "old" is still
present (the `delete_mailbox` coroutine is never awaited) and the locally
known uid 9 that the server no longer reports is still present with its
stale flags (this `refresh_mailbox` only adds, never prunes).  The
`background_tasks` variant of `sync_account` does prune both, but it is not
the code under this claim's mailbox-deletion path that runs here. -/
theorem claim_C1_sync_pass_keeps_deleted :
    sync_account_mgmt accountW localStoreW remoteW =
      [mOldW, { mInbox2W with seen := true }, mStale9W, m3W] ∧
    (sync_account_mgmt accountW localStoreW remoteW).any
      (fun m => m.mailbox == "old") = true ∧
    (sync_account_mgmt accountW localStoreW remoteW).any
      (fun m => m.mailbox == "INBOX" && m.uid == 9) = true ∧
    delete_mailbox_effect localStoreW "old" = [mInbox2W, mStale9W] := by
  refine ⟨by decide, by decide, by decide, by decide⟩

end LocalAIMailAssistant
